import Mathlib

/-!
Shallow embedding of `motor_controller.py`: a Flask-driven GPIO motor
controller for a toy car.  Pure Python string and float operations are
modelled over `List Char` and `ℚ`; the GPIO side effects are modelled as an
explicit trace of events together with a pin-level map, and the controller
object is threaded explicitly through each operation.  Exceptions raised by
the controller (`MotorControllerError`) are modelled with `Except`.
-/

namespace GptCar

/-- Model of Python whitespace recognised by `str.strip()`:
space, tab, newline, carriage return, vertical tab, form feed. -/
def pyIsSpace (c : Char) : Bool :=
  c.toNat = 32 || c.toNat = 9 || c.toNat = 10 || c.toNat = 13 ||
    c.toNat = 11 || c.toNat = 12

/-- Model of Python `str.upper()` on one ASCII character. -/
def pyCharUpper (c : Char) : Char :=
  if 97 ≤ c.toNat && c.toNat ≤ 122 then Char.ofNat (c.toNat - 32) else c

/-- Model of Python `str.lower()` on one ASCII character. -/
def pyCharLower (c : Char) : Char :=
  if 65 ≤ c.toNat && c.toNat ≤ 90 then Char.ofNat (c.toNat + 32) else c

/-- Model of Python `command.strip().upper()` (line 94 of the source). -/
def pyStripUpper (s : String) : String :=
  String.mk
    ((((s.data.dropWhile pyIsSpace).reverse.dropWhile pyIsSpace).reverse).map
      pyCharUpper)

/-- Model of Python `str.lower()` (used in the result messages). -/
def pyLower (s : String) : String :=
  String.mk (s.data.map pyCharLower)

/-- Numeric value of a list of decimal digit characters. -/
def digitsVal (l : List Char) : Nat :=
  l.foldl (fun a c => a * 10 + (c.toNat - 48)) 0

/-- Model of the Python builtin `float` applied to a string: optional
surrounding whitespace, an optional sign, then decimal digits with at most
one decimal point; anything else raises `ValueError` (here: `none`). -/
def pyFloatOfString (s : String) : Option ℚ :=
  let t := ((s.data.dropWhile pyIsSpace).reverse.dropWhile pyIsSpace).reverse
  let neg : Bool := t.head? = some '-'
  let body := if t.head? = some '-' || t.head? = some '+' then t.tail else t
  let intPart := body.takeWhile Char.isDigit
  let rest := body.dropWhile Char.isDigit
  let val : Option ℚ :=
    match rest with
    | [] => if intPart.isEmpty then Option.none else some (digitsVal intPart)
    | '.' :: frac =>
        if frac.all Char.isDigit && !(intPart.isEmpty && frac.isEmpty) then
          some (mkRat (digitsVal intPart * 10 ^ frac.length + digitsVal frac)
            (10 ^ frac.length))
        else Option.none
    | _ => Option.none
  val.map (fun q => if neg then -q else q)

/-- A Python value passed as the `duration` argument of `execute`. -/
inductive PyVal
  | none
  | num (q : ℚ)
  | nan
  | inf
  | ninf
  | str (s : String)
  | bool (b : Bool)
  | obj
deriving DecidableEq, Repr

/-- A Python float: either finite (modelled exactly as a rational) or one of
the non-finite values rejected by `math.isfinite`. -/
inductive PyFloat
  | finite (q : ℚ)
  | nan
  | inf
  | ninf
deriving DecidableEq, Repr

/-- Model of the Python builtin `float(requested)` as used at line 165:
`none` models a raised `TypeError`/`ValueError`. -/
def pyToFloat : PyVal → Option PyFloat
  | PyVal.none => Option.none
  | PyVal.num q => some (PyFloat.finite q)
  | PyVal.nan => some PyFloat.nan
  | PyVal.inf => some PyFloat.inf
  | PyVal.ninf => some PyFloat.ninf
  | PyVal.str s => (pyFloatOfString s).map PyFloat.finite
  | PyVal.bool b => some (PyFloat.finite (if b then 1 else 0))
  | PyVal.obj => Option.none

/-- The distinct `MotorControllerError` raises in the source, tagged by
cause; `message` and `statusCode` below recover the constructor arguments. -/
inductive MotorControllerError
  | commandRequired
  | unknownCommand
  | durationNotNumber
  | durationNotFinite
  | durationNotPositive
  | durationTooLarge (maxDuration : ℚ)
  | shutDown
deriving DecidableEq, Repr

/-- The `message` argument of each `MotorControllerError(...)` raise. -/
def MotorControllerError.message : MotorControllerError → String
  | commandRequired => "Command is required"
  | unknownCommand => "Unknown command"
  | durationNotNumber => "Duration must be a number"
  | durationNotFinite => "Duration must be finite"
  | durationNotPositive => "Duration must be positive"
  | durationTooLarge m => "Duration must be <= " ++ toString m ++ " seconds"
  | shutDown => "Controller is shut down"

/-- The `status_code` of each raise (default 400; 503 for shutdown). -/
def MotorControllerError.statusCode : MotorControllerError → Nat
  | shutDown => 503
  | _ => 400

def DEFAULT_DRIVE_DURATION : ℚ := 2
def DEFAULT_TURN_DURATION : ℚ := 1
def MAX_DURATION : ℚ := 5

inductive PinLevel
  | low
  | high
deriving DecidableEq, Repr, BEq

/-- Pin layout for the drive and steering motors (dataclass `MotorPins`). -/
structure MotorPins where
  forward : Nat
  backward : Nat
  left : Nat
  right : Nat
deriving DecidableEq, Repr

/-- The `all_pins` property: `(forward, backward, left, right)`. -/
def MotorPins.allPins (p : MotorPins) : List Nat :=
  [p.forward, p.backward, p.left, p.right]

/-- One observable GPIO side effect of the controller. -/
inductive GpioEvent
  | output (pin : Nat) (level : PinLevel)
  | sleepFor (duration : ℚ)
  | release
deriving DecidableEq, Repr

/-- Effect of one GPIO event on the pin-level map. -/
def applyEvent (levels : Nat → PinLevel) : GpioEvent → (Nat → PinLevel)
  | GpioEvent.output pin lvl => fun p => if p = pin then lvl else levels p
  | _ => levels

def applyEvents (levels : Nat → PinLevel) (evs : List GpioEvent) :
    Nat → PinLevel :=
  evs.foldl applyEvent levels

/-- The writes issued by `_stop_locked`: every pin of `all_pins` Low. -/
def stopTrace (p : MotorPins) : List GpioEvent :=
  p.allPins.map (fun pin => GpioEvent.output pin PinLevel.low)

/-- The `MotorController` state: its construction-time configuration, the
current pin levels, and the `_cleaned` flag. -/
structure MotorController where
  pins : MotorPins
  driveDuration : ℚ
  turnDuration : ℚ
  maxDuration : ℚ
  levels : Nat → PinLevel
  cleaned : Bool

/-- `__init__`: record the configuration and write every pin Low (the
hardware's prior pin levels are `prior`). -/
def MotorController.init (pins : MotorPins)
    (driveDuration turnDuration maxDuration : ℚ)
    (prior : Nat → PinLevel) : MotorController :=
  { pins := pins
    driveDuration := driveDuration
    turnDuration := turnDuration
    maxDuration := maxDuration
    levels := applyEvents prior (stopTrace pins)
    cleaned := false }

/-- `_ensure_active`: raise `ControllerShutDown` (503) if `_cleaned`. -/
def MotorController.ensureActive (c : MotorController) :
    Except MotorControllerError Unit :=
  if c.cleaned then Except.error MotorControllerError.shutDown
  else Except.ok ()

/-- `_stop_locked`: write every pin of `all_pins` Low. -/
def MotorController.stopLocked (c : MotorController) :
    MotorController × List GpioEvent :=
  ({ c with levels := applyEvents c.levels (stopTrace c.pins) },
   stopTrace c.pins)

/-- The dictionary returned by a successful `execute`/`stop` call. -/
structure ExecResult where
  message : String
  duration : Option ℚ
deriving DecidableEq, Repr

/-- `stop`: under the lock, assert active and force every pin Low. -/
def MotorController.stop (c : MotorController) :
    Except MotorControllerError (ExecResult × MotorController × List GpioEvent) :=
  match c.ensureActive with
  | Except.error e => Except.error e
  | Except.ok _ =>
      let s := c.stopLocked
      Except.ok ({ message := "Motors stopped", duration := Option.none },
        s.1, s.2)

/-- `_select_drive_pins`. -/
def MotorController.selectDrivePins (c : MotorController) (command : String) :
    Nat × Nat :=
  if command = "FORWARD" then (c.pins.forward, c.pins.backward)
  else (c.pins.backward, c.pins.forward)

/-- `_select_turn_pins`. -/
def MotorController.selectTurnPins (c : MotorController) (command : String) :
    Nat × Nat :=
  if command = "LEFT" then (c.pins.left, c.pins.right)
  else (c.pins.right, c.pins.left)

/-- `_normalize_duration`. -/
def MotorController.normalizeDuration (c : MotorController) (requested : PyVal)
    (default : ℚ) : Except MotorControllerError ℚ :=
  match requested with
  | PyVal.none => Except.ok default
  | r =>
      match pyToFloat r with
      | Option.none => Except.error MotorControllerError.durationNotNumber
      | some (PyFloat.finite v) =>
          if v ≤ 0 then Except.error MotorControllerError.durationNotPositive
          else if c.maxDuration < v then
            Except.error (MotorControllerError.durationTooLarge c.maxDuration)
          else Except.ok v
      | some _ => Except.error MotorControllerError.durationNotFinite

/-- The event trace of one timed motion (lines 151-154): active pin High,
opposite pin Low, sleep, then `_stop_locked`. -/
def motionTrace (pinPair : Nat × Nat) (duration : ℚ) (p : MotorPins) :
    List GpioEvent :=
  GpioEvent.output pinPair.1 PinLevel.high ::
    GpioEvent.output pinPair.2 PinLevel.low ::
    GpioEvent.sleepFor duration :: stopTrace p

/-- `_run_with_duration`: normalise the duration, then under the lock assert
active, drive the pair, sleep, and stop. -/
def MotorController.runWithDuration (c : MotorController) (pinPair : Nat × Nat)
    (requestedDuration : PyVal) (defaultDuration : ℚ) :
    Except MotorControllerError (ℚ × MotorController × List GpioEvent) :=
  match c.normalizeDuration requestedDuration defaultDuration with
  | Except.error e => Except.error e
  | Except.ok duration =>
      match c.ensureActive with
      | Except.error e => Except.error e
      | Except.ok _ =>
          let tr := motionTrace pinPair duration c.pins
          Except.ok (duration,
            { c with levels := applyEvents c.levels tr }, tr)

/-- `execute`. -/
def MotorController.execute (c : MotorController) (command : String)
    (duration : PyVal) :
    Except MotorControllerError (ExecResult × MotorController × List GpioEvent) :=
  let normalized := pyStripUpper command
  if normalized = "" then Except.error MotorControllerError.commandRequired
  else if normalized = "STOP" then c.stop
  else if normalized = "FORWARD" ∨ normalized = "BACKWARD" then
    match c.runWithDuration (c.selectDrivePins normalized) duration
        c.driveDuration with
    | Except.error e => Except.error e
    | Except.ok (d, c', tr) =>
        Except.ok
          ({ message := "Moving " ++ pyLower normalized, duration := some d },
            c', tr)
  else if normalized = "LEFT" ∨ normalized = "RIGHT" then
    match c.runWithDuration (c.selectTurnPins normalized) duration
        c.turnDuration with
    | Except.error e => Except.error e
    | Except.ok (d, c', tr) =>
        Except.ok
          ({ message := "Turning " ++ pyLower normalized, duration := some d },
            c', tr)
  else Except.error MotorControllerError.unknownCommand

/-- `cleanup`: no-op when already cleaned; otherwise `_stop_locked`, then
`GPIO.cleanup()`, then set `_cleaned`.  `releaseRaises` models the
`GPIO.cleanup()` call raising; the returned `Bool` is whether that raise
propagated out of `cleanup` (there is no `try` around it in the source), in
which case `_cleaned` is never set. -/
def MotorController.cleanup (c : MotorController) (releaseRaises : Bool) :
    Bool × MotorController × List GpioEvent :=
  if c.cleaned then (false, c, [])
  else
    let s := c.stopLocked
    if releaseRaises then (true, s.1, s.2)
    else (false, { s.1 with cleaned := true }, s.2 ++ [GpioEvent.release])

/-- The module-level pin layout `PINS`. -/
def PINS : MotorPins := { forward := 17, backward := 27, left := 22, right := 23 }

/-- The module-level `controller = MotorController(GPIO, PINS)` (defaults:
drive 2.0, turn 1.0, max 5.0), built over initially-Low hardware. -/
def controller : MotorController :=
  MotorController.init PINS DEFAULT_DRIVE_DURATION DEFAULT_TURN_DURATION
    MAX_DURATION (fun _ => PinLevel.low)

/-- All four configured pins of the controller read Low. -/
def allPinsLow (c : MotorController) : Prop :=
  c.levels c.pins.forward = PinLevel.low ∧
  c.levels c.pins.backward = PinLevel.low ∧
  c.levels c.pins.left = PinLevel.low ∧
  c.levels c.pins.right = PinLevel.low

instance (c : MotorController) : Decidable (allPinsLow c) := by
  unfold allPinsLow; infer_instance

/-- The four pin identifiers are pairwise distinct. -/
def pinsDistinct (p : MotorPins) : Prop :=
  p.forward ≠ p.backward ∧ p.forward ≠ p.left ∧ p.forward ≠ p.right ∧
  p.backward ≠ p.left ∧ p.backward ≠ p.right ∧ p.left ≠ p.right

instance (p : MotorPins) : Decidable (pinsDistinct p) := by
  unfold pinsDistinct; infer_instance

/-- The configured pins currently reading High, in `all_pins` order. -/
def highPins (p : MotorPins) (levels : Nat → PinLevel) : List Nat :=
  p.allPins.filter (fun q => decide (levels q = PinLevel.high))

/-- The pin a command is named after. -/
def commandPin (p : MotorPins) : String → Nat
  | "FORWARD" => p.forward
  | "BACKWARD" => p.backward
  | "LEFT" => p.left
  | _ => p.right

/-- The default duration `execute` passes to `_run_with_duration` for a
normalized command: the drive default for FORWARD/BACKWARD, else the turn
default. -/
def MotorController.commandDefault (c : MotorController) (n : String) : ℚ :=
  if n = "FORWARD" ∨ n = "BACKWARD" then c.driveDuration else c.turnDuration

/-- The `(active, inactive)` pair `execute` selects for a normalized
motion command. -/
def MotorController.selectedPair (c : MotorController) (n : String) :
    Nat × Nat :=
  if n = "FORWARD" ∨ n = "BACKWARD" then c.selectDrivePins n
  else c.selectTurnPins n

/-- The message of a successful motion result for a normalized command. -/
def motionMessage (n : String) : String :=
  (if n = "FORWARD" ∨ n = "BACKWARD" then "Moving " else "Turning ") ++
    pyLower n

/-- Projection: the result dictionary of a successful call. -/
def execResult
    (r : Except MotorControllerError (ExecResult × MotorController × List GpioEvent)) :
    Option ExecResult :=
  match r with
  | Except.ok (res, _, _) => some res
  | Except.error _ => Option.none

/-- Projection: the `duration` field of a successful call's result. -/
def execDuration
    (r : Except MotorControllerError (ExecResult × MotorController × List GpioEvent)) :
    Option (Option ℚ) :=
  match r with
  | Except.ok (res, _, _) => some res.duration
  | Except.error _ => Option.none

/-- Projection: the error a call raised, if any. -/
def execError
    (r : Except MotorControllerError (ExecResult × MotorController × List GpioEvent)) :
    Option MotorControllerError :=
  match r with
  | Except.ok _ => Option.none
  | Except.error e => some e

/-- The controller state reached by the module-level `controller` after one
successful `cleanup()`. -/
def shutController : MotorController := (controller.cleanup false).2.1

/-- A controller constructed from a layout whose four pin numbers coincide:
nothing in `MotorPins` or `MotorController.__init__` rejects it. -/
def samePinController : MotorController :=
  MotorController.init { forward := 1, backward := 1, left := 1, right := 1 }
    DEFAULT_DRIVE_DURATION DEFAULT_TURN_DURATION MAX_DURATION
    (fun _ => PinLevel.low)



theorem applyEvents_stop_low (prev : Nat → PinLevel) (p : MotorPins) (q : Nat)
    (hq : q = p.forward ∨ q = p.backward ∨ q = p.left ∨ q = p.right) :
    applyEvents prev (stopTrace p) q = PinLevel.low := by
  simp only [stopTrace, MotorPins.allPins, List.map, applyEvents, List.foldl,
    applyEvent]
  rcases hq with h | h | h | h <;> subst h <;> split_ifs <;> simp_all

theorem applyEvents_motion_low (prev : Nat → PinLevel) (pr : Nat × Nat)
    (d : ℚ) (p : MotorPins) (q : Nat)
    (hq : q = p.forward ∨ q = p.backward ∨ q = p.left ∨ q = p.right) :
    applyEvents prev (motionTrace pr d p) q = PinLevel.low :=
  applyEvents_stop_low
    (applyEvent (applyEvent (applyEvent prev
      (GpioEvent.output pr.1 PinLevel.high))
      (GpioEvent.output pr.2 PinLevel.low))
      (GpioEvent.sleepFor d)) p q hq

theorem runWithDuration_ok (c : MotorController) (pr : Nat × Nat)
    (dur : PyVal) (dft d : ℚ)
    (hnorm : c.normalizeDuration dur dft = Except.ok d)
    (hact : c.cleaned = false) :
    c.runWithDuration pr dur dft = Except.ok (d,
      { c with levels := applyEvents c.levels (motionTrace pr d c.pins) },
      motionTrace pr d c.pins) := by
  unfold MotorController.runWithDuration
  rw [hnorm]
  unfold MotorController.ensureActive
  rw [hact]
  rfl

theorem execute_eq_motion (c : MotorController) (cmd : String) (dur : PyVal)
    (d : ℚ)
    (hcmd : pyStripUpper cmd = "FORWARD" ∨ pyStripUpper cmd = "BACKWARD" ∨
      pyStripUpper cmd = "LEFT" ∨ pyStripUpper cmd = "RIGHT")
    (hact : c.cleaned = false)
    (hnorm : c.normalizeDuration dur (c.commandDefault (pyStripUpper cmd)) =
      Except.ok d) :
    c.execute cmd dur = Except.ok
      ({ message := motionMessage (pyStripUpper cmd), duration := some d },
       { c with levels :=
                  applyEvents c.levels
                    (motionTrace (c.selectedPair (pyStripUpper cmd)) d c.pins) },
       motionTrace (c.selectedPair (pyStripUpper cmd)) d c.pins) := by
  rcases hcmd with h | h | h | h <;>
    [skip; skip; skip; skip] <;>
  · rw [MotorController.commandDefault] at hnorm
    unfold MotorController.execute
    rw [h] at hnorm ⊢
    simp only [String.reduceEq, true_or, or_true, false_or, or_false,
      ite_true, ite_false, reduceIte] at hnorm
    rw [if_neg (by decide), if_neg (by decide)]
    first
      | (rw [if_pos (by decide),
          runWithDuration_ok c _ dur c.driveDuration d hnorm hact])
      | (rw [if_neg (by decide), if_pos (by decide),
          runWithDuration_ok c _ dur c.turnDuration d hnorm hact])
    simp [motionMessage, MotorController.selectedPair]

deriving instance DecidableEq for Except

/-- C1: For every command in {FORWARD, BACKWARD, LEFT, RIGHT} and every
duration accepted by duration normalization, a successful `execute` performs
exactly this pin sequence: the active pin of the selected pair is set High
and the opposite pin set Low, the caller waits for the resolved duration,
and then all four pins (not just the pair in use) are written Low; hence
after `execute` returns successfully, every pin's final level is Low. -/
theorem C1_motion_pin_sequence (c : MotorController) (cmd : String)
    (dur : PyVal) (d : ℚ)
    (hcmd : pyStripUpper cmd = "FORWARD" ∨ pyStripUpper cmd = "BACKWARD" ∨
      pyStripUpper cmd = "LEFT" ∨ pyStripUpper cmd = "RIGHT")
    (hact : c.cleaned = false)
    (hnorm : c.normalizeDuration dur (c.commandDefault (pyStripUpper cmd)) =
      Except.ok d) :
    ∃ res c', c.execute cmd dur = Except.ok (res, c',
        GpioEvent.output (c.selectedPair (pyStripUpper cmd)).1 PinLevel.high ::
          GpioEvent.output (c.selectedPair (pyStripUpper cmd)).2 PinLevel.low ::
          GpioEvent.sleepFor d :: stopTrace c.pins) ∧
      allPinsLow c' := by
  refine ⟨_, _, execute_eq_motion c cmd dur d hcmd hact hnorm, ?_⟩
  exact ⟨applyEvents_motion_low c.levels _ d c.pins _ (Or.inl rfl),
    applyEvents_motion_low c.levels _ d c.pins _ (Or.inr (Or.inl rfl)),
    applyEvents_motion_low c.levels _ d c.pins _ (Or.inr (Or.inr (Or.inl rfl))),
    applyEvents_motion_low c.levels _ d c.pins _ (Or.inr (Or.inr (Or.inr rfl)))⟩

theorem C1_motion_pin_sequence_witness :
    (pyStripUpper "backward" = "FORWARD" ∨
      pyStripUpper "backward" = "BACKWARD" ∨
      pyStripUpper "backward" = "LEFT" ∨
      pyStripUpper "backward" = "RIGHT") ∧
    controller.cleaned = false ∧
    controller.normalizeDuration (PyVal.num 3)
      (controller.commandDefault (pyStripUpper "backward")) = Except.ok 3 ∧
    (∃ res c', controller.execute "backward" (PyVal.num 3) =
        Except.ok (res, c',
          GpioEvent.output
              (controller.selectedPair (pyStripUpper "backward")).1
              PinLevel.high ::
            GpioEvent.output
              (controller.selectedPair (pyStripUpper "backward")).2
              PinLevel.low ::
            GpioEvent.sleepFor 3 :: stopTrace controller.pins) ∧
      allPinsLow c') :=
  ⟨by decide, by decide, by decide,
    C1_motion_pin_sequence controller "backward" (PyVal.num 3) 3 (by decide)
      (by decide) (by decide)⟩

/-- C2: Duration normalization: an absent value resolves to the
command-class default (2.0 for drive, 1.0 for turn); a value that cannot be
converted to a number raises InvalidDuration; a non-finite value (NaN,
+infinity, -infinity) raises InvalidDuration; a value ≤ 0 raises
InvalidDuration; a value strictly greater than the configured maximum
(default 5.0) raises InvalidDuration; every other value is returned
unchanged; and each of these error causes yields a distinct message. -/
theorem C2_normalize_duration (c : MotorController) (dft q : ℚ) (s : String)
    (hnum : pyFloatOfString s = Option.none) :
    c.normalizeDuration PyVal.none dft = Except.ok dft ∧
    execDuration (controller.execute "FORWARD" PyVal.none) = some (some 2) ∧
    execDuration (controller.execute "LEFT" PyVal.none) = some (some 1) ∧
    c.normalizeDuration (PyVal.str s) dft =
      Except.error MotorControllerError.durationNotNumber ∧
    c.normalizeDuration PyVal.obj dft =
      Except.error MotorControllerError.durationNotNumber ∧
    c.normalizeDuration PyVal.nan dft =
      Except.error MotorControllerError.durationNotFinite ∧
    c.normalizeDuration PyVal.inf dft =
      Except.error MotorControllerError.durationNotFinite ∧
    c.normalizeDuration PyVal.ninf dft =
      Except.error MotorControllerError.durationNotFinite ∧
    (q ≤ 0 → c.normalizeDuration (PyVal.num q) dft =
      Except.error MotorControllerError.durationNotPositive) ∧
    (0 < q → c.maxDuration < q → c.normalizeDuration (PyVal.num q) dft =
      Except.error (MotorControllerError.durationTooLarge c.maxDuration)) ∧
    (0 < q → q ≤ c.maxDuration →
      c.normalizeDuration (PyVal.num q) dft = Except.ok q) ∧
    MotorControllerError.durationNotNumber.message ≠
      MotorControllerError.durationNotFinite.message ∧
    MotorControllerError.durationNotNumber.message ≠
      MotorControllerError.durationNotPositive.message ∧
    MotorControllerError.durationNotNumber.message ≠
      (MotorControllerError.durationTooLarge MAX_DURATION).message ∧
    MotorControllerError.durationNotFinite.message ≠
      MotorControllerError.durationNotPositive.message ∧
    MotorControllerError.durationNotFinite.message ≠
      (MotorControllerError.durationTooLarge MAX_DURATION).message ∧
    MotorControllerError.durationNotPositive.message ≠
      (MotorControllerError.durationTooLarge MAX_DURATION).message := by
  refine ⟨rfl, by decide, by decide, ?_, rfl, rfl, rfl, rfl, ?_, ?_, ?_,
    by decide, by decide, by decide, by decide, by decide, by decide⟩
  · simp [MotorController.normalizeDuration, pyToFloat, hnum]
  · intro h
    simp only [MotorController.normalizeDuration, pyToFloat]
    rw [if_pos h]
  · intro h0 hm
    simp only [MotorController.normalizeDuration, pyToFloat]
    rw [if_neg (not_le.mpr h0), if_pos hm]
  · intro h0 hm
    simp only [MotorController.normalizeDuration, pyToFloat]
    rw [if_neg (not_le.mpr h0), if_neg (not_lt.mpr hm)]

theorem C2_normalize_duration_witness :
    pyFloatOfString "abc" = Option.none ∧
    (controller.normalizeDuration PyVal.none 2 = Except.ok 2 ∧
    execDuration (controller.execute "FORWARD" PyVal.none) = some (some 2) ∧
    execDuration (controller.execute "LEFT" PyVal.none) = some (some 1) ∧
    controller.normalizeDuration (PyVal.str "abc") 2 =
      Except.error MotorControllerError.durationNotNumber ∧
    controller.normalizeDuration PyVal.obj 2 =
      Except.error MotorControllerError.durationNotNumber ∧
    controller.normalizeDuration PyVal.nan 2 =
      Except.error MotorControllerError.durationNotFinite ∧
    controller.normalizeDuration PyVal.inf 2 =
      Except.error MotorControllerError.durationNotFinite ∧
    controller.normalizeDuration PyVal.ninf 2 =
      Except.error MotorControllerError.durationNotFinite ∧
    ((7:ℚ) ≤ 0 → controller.normalizeDuration (PyVal.num 7) 2 =
      Except.error MotorControllerError.durationNotPositive) ∧
    ((0:ℚ) < 7 → controller.maxDuration < 7 →
      controller.normalizeDuration (PyVal.num 7) 2 =
        Except.error
          (MotorControllerError.durationTooLarge controller.maxDuration)) ∧
    ((0:ℚ) < 7 → (7:ℚ) ≤ controller.maxDuration →
      controller.normalizeDuration (PyVal.num 7) 2 = Except.ok 7) ∧
    MotorControllerError.durationNotNumber.message ≠
      MotorControllerError.durationNotFinite.message ∧
    MotorControllerError.durationNotNumber.message ≠
      MotorControllerError.durationNotPositive.message ∧
    MotorControllerError.durationNotNumber.message ≠
      (MotorControllerError.durationTooLarge MAX_DURATION).message ∧
    MotorControllerError.durationNotFinite.message ≠
      MotorControllerError.durationNotPositive.message ∧
    MotorControllerError.durationNotFinite.message ≠
      (MotorControllerError.durationTooLarge MAX_DURATION).message ∧
    MotorControllerError.durationNotPositive.message ≠
      (MotorControllerError.durationTooLarge MAX_DURATION).message) :=
  ⟨by decide, C2_normalize_duration controller 2 7 "abc" (by decide)⟩

theorem runWithDuration_shut (c : MotorController) (pr : Nat × Nat)
    (dur : PyVal) (dft d : ℚ)
    (hnorm : c.normalizeDuration dur dft = Except.ok d)
    (hshut : c.cleaned = true) :
    c.runWithDuration pr dur dft =
      Except.error MotorControllerError.shutDown := by
  unfold MotorController.runWithDuration
  rw [hnorm]
  unfold MotorController.ensureActive
  rw [hshut]
  rfl

/-- C3 counterexample: after shutdown, `execute` with a recognised command
but an invalid duration fails with the 400 validation error "Duration must
be positive", not with the 503 `ControllerShutDown` error, because
`_normalize_duration` runs before `_ensure_active`. -/
theorem C3_counterexample :
    shutController.cleaned = true ∧
    execError (shutController.execute "FORWARD" (PyVal.num (-1))) =
      some MotorControllerError.durationNotPositive ∧
    execError (shutController.execute "spin" PyVal.none) =
      some MotorControllerError.unknownCommand ∧
    MotorControllerError.durationNotPositive.statusCode = 400 ∧
    MotorControllerError.unknownCommand.statusCode = 400 := by decide

/-- C3 (amended): after the controller has transitioned to ShutDown, every
`execute` call whose command normalizes to a recognised command and whose
duration passes normalization — and every `stop` call — fails with
`ControllerShutDown`, whose status 503 is distinct from the 400 of every
validation error, and performs no pin write (an `Except.error` result
carries no GPIO event); calls that fail validation raise the validation
error instead (still without touching a pin). -/
theorem C3_shutdown_rejects (c : MotorController) (cmd : String)
    (dur : PyVal) (d : ℚ) (hshut : c.cleaned = true) :
    (pyStripUpper cmd = "FORWARD" ∨ pyStripUpper cmd = "BACKWARD" ∨
        pyStripUpper cmd = "LEFT" ∨ pyStripUpper cmd = "RIGHT" →
      c.normalizeDuration dur (c.commandDefault (pyStripUpper cmd)) =
        Except.ok d →
      c.execute cmd dur = Except.error MotorControllerError.shutDown) ∧
    (pyStripUpper cmd = "STOP" →
      c.execute cmd dur = Except.error MotorControllerError.shutDown) ∧
    c.stop = Except.error MotorControllerError.shutDown ∧
    MotorControllerError.shutDown.statusCode = 503 ∧
    (∀ e : MotorControllerError, e ≠ MotorControllerError.shutDown →
      e.statusCode = 400) := by
  have hstop : c.stop = Except.error MotorControllerError.shutDown := by
    unfold MotorController.stop MotorController.ensureActive
    rw [hshut]
    rfl
  refine ⟨?_, ?_, hstop, rfl, ?_⟩
  · intro hcmd hnorm
    rcases hcmd with h | h | h | h <;>
      [skip; skip; skip; skip] <;>
    · rw [MotorController.commandDefault] at hnorm
      unfold MotorController.execute
      rw [h] at hnorm ⊢
      simp only [String.reduceEq, true_or, or_true, false_or, or_false,
        ite_true, ite_false, reduceIte] at hnorm
      rw [if_neg (by decide), if_neg (by decide)]
      first
        | (rw [if_pos (by decide),
            runWithDuration_shut c _ dur c.driveDuration d hnorm hshut])
        | (rw [if_neg (by decide), if_pos (by decide),
            runWithDuration_shut c _ dur c.turnDuration d hnorm hshut])
  · intro h
    unfold MotorController.execute
    rw [h]
    rw [if_neg (by decide), if_pos (by decide)]
    exact hstop
  · intro e he
    cases e <;> first | rfl | exact absurd rfl he

theorem C3_shutdown_rejects_witness :
    shutController.cleaned = true ∧
    ((pyStripUpper "FORWARD" = "FORWARD" ∨
        pyStripUpper "FORWARD" = "BACKWARD" ∨
        pyStripUpper "FORWARD" = "LEFT" ∨
        pyStripUpper "FORWARD" = "RIGHT" →
      shutController.normalizeDuration PyVal.none
          (shutController.commandDefault (pyStripUpper "FORWARD")) =
        Except.ok 2 →
      shutController.execute "FORWARD" PyVal.none =
        Except.error MotorControllerError.shutDown) ∧
    (pyStripUpper "FORWARD" = "STOP" →
      shutController.execute "FORWARD" PyVal.none =
        Except.error MotorControllerError.shutDown) ∧
    shutController.stop = Except.error MotorControllerError.shutDown ∧
    MotorControllerError.shutDown.statusCode = 503 ∧
    (∀ e : MotorControllerError, e ≠ MotorControllerError.shutDown →
      e.statusCode = 400)) :=
  ⟨by decide, C3_shutdown_rejects shutController "FORWARD" PyVal.none 2
    (by decide)⟩

/-- C4: `cleanup` on an Active controller forces all four pins Low, releases
the GPIO resource, and transitions to the terminal ShutDown state; a second
call returns immediately with no pin write and no release, and no later
`cleanup` leaves the ShutDown state. -/
theorem C4_shutdown_idempotent (c : MotorController)
    (hact : c.cleaned = false) :
    ∃ c', c.cleanup false =
        (false, c', stopTrace c.pins ++ [GpioEvent.release]) ∧
      c'.cleaned = true ∧ allPinsLow c' ∧ c'.pins = c.pins ∧
      ∀ r : Bool, c'.cleanup r = (false, c', []) := by
  refine
    ⟨{ c with
        levels := applyEvents c.levels (stopTrace c.pins)
        cleaned := true },
      ?_, rfl, ?_, rfl, ?_⟩
  · unfold MotorController.cleanup MotorController.stopLocked
    rw [hact]
    rfl
  · exact ⟨applyEvents_stop_low c.levels c.pins _ (Or.inl rfl),
      applyEvents_stop_low c.levels c.pins _ (Or.inr (Or.inl rfl)),
      applyEvents_stop_low c.levels c.pins _ (Or.inr (Or.inr (Or.inl rfl))),
      applyEvents_stop_low c.levels c.pins _ (Or.inr (Or.inr (Or.inr rfl)))⟩
  · intro r
    unfold MotorController.cleanup
    rfl

theorem C4_shutdown_idempotent_witness :
    controller.cleaned = false ∧
    (∃ c', controller.cleanup false =
        (false, c', stopTrace controller.pins ++ [GpioEvent.release]) ∧
      c'.cleaned = true ∧ allPinsLow c' ∧ c'.pins = controller.pins ∧
      ∀ r : Bool, c'.cleanup r = (false, c', [])) :=
  ⟨by decide, C4_shutdown_idempotent controller (by decide)⟩

/-- C5: For each motion command, the first pin driven High during the motion
is exactly the pin named by the command (forward pin for FORWARD, backward
for BACKWARD, left for LEFT, right for RIGHT); and — the pins being the
four distinct pins of the layout and all Low at motion start — exactly one
pin of the controller is High once the motion has started. -/
theorem C5_first_pin_high (c : MotorController) (cmd : String) (dur : PyVal)
    (d : ℚ)
    (hcmd : pyStripUpper cmd = "FORWARD" ∨ pyStripUpper cmd = "BACKWARD" ∨
      pyStripUpper cmd = "LEFT" ∨ pyStripUpper cmd = "RIGHT")
    (hact : c.cleaned = false)
    (hnorm : c.normalizeDuration dur (c.commandDefault (pyStripUpper cmd)) =
      Except.ok d)
    (hdis : pinsDistinct c.pins)
    (hlow : allPinsLow c) :
    ∃ res c' tr, c.execute cmd dur = Except.ok (res, c', tr) ∧
      tr.head? = some (GpioEvent.output
        (commandPin c.pins (pyStripUpper cmd)) PinLevel.high) ∧
      highPins c.pins (applyEvents c.levels (tr.take 2)) =
        [commandPin c.pins (pyStripUpper cmd)] := by
  obtain ⟨hfb, hfl, hfr, hbl, hbr, hlr⟩ := hdis
  obtain ⟨hf, hb, hl, hr⟩ := hlow
  refine ⟨_, _, _, execute_eq_motion c cmd dur d hcmd hact hnorm, ?_, ?_⟩ <;>
    rcases hcmd with h | h | h | h <;> rw [h] <;>
    simp [MotorController.selectedPair, MotorController.selectDrivePins,
      MotorController.selectTurnPins, commandPin, motionTrace, highPins,
      MotorPins.allPins, applyEvents, applyEvent, List.filter,
      hf, hb, hl, hr, hfb, hfl, hfr, hbl, hbr, hlr,
      Ne.symm hfb, Ne.symm hfl, Ne.symm hfr, Ne.symm hbl, Ne.symm hbr,
      Ne.symm hlr]

theorem C5_first_pin_high_witness :
    (pyStripUpper "right" = "FORWARD" ∨ pyStripUpper "right" = "BACKWARD" ∨
      pyStripUpper "right" = "LEFT" ∨ pyStripUpper "right" = "RIGHT") ∧
    controller.cleaned = false ∧
    controller.normalizeDuration PyVal.none
      (controller.commandDefault (pyStripUpper "right")) = Except.ok 1 ∧
    pinsDistinct controller.pins ∧
    allPinsLow controller ∧
    (∃ res c' tr, controller.execute "right" PyVal.none =
        Except.ok (res, c', tr) ∧
      tr.head? = some (GpioEvent.output
        (commandPin controller.pins (pyStripUpper "right")) PinLevel.high) ∧
      highPins controller.pins (applyEvents controller.levels (tr.take 2)) =
        [commandPin controller.pins (pyStripUpper "right")]) :=
  ⟨by decide, by decide, by decide, by decide, by decide,
    C5_first_pin_high controller "right" PyVal.none 1 (by decide) (by decide)
      (by decide) (by decide) (by decide)⟩

/-- C6: `execute` with the STOP command (any letter case) delegates to
`stop` and ignores the duration argument entirely — it succeeds for every
duration value, including ones rejected for other commands; when Active the
result is the "Motors stopped" message with no duration field, all four
pins are Low afterwards, and calling `stop` directly with no prior motion
also succeeds leaving all pins Low. -/
theorem C6_stop_ignores_duration (c : MotorController) (cmd : String)
    (dur : PyVal) (hcmd : pyStripUpper cmd = "STOP")
    (hact : c.cleaned = false) :
    ∃ c', c.execute cmd dur = Except.ok
        ({ message := "Motors stopped", duration := Option.none }, c',
          stopTrace c.pins) ∧
      c.stop = Except.ok
        ({ message := "Motors stopped", duration := Option.none }, c',
          stopTrace c.pins) ∧
      allPinsLow c' := by
  have hstop : c.stop = Except.ok
      ({ message := "Motors stopped", duration := Option.none },
        { c with levels := applyEvents c.levels (stopTrace c.pins) },
        stopTrace c.pins) := by
    unfold MotorController.stop MotorController.ensureActive
      MotorController.stopLocked
    rw [hact]
    rfl
  refine ⟨_, ?_, hstop, ?_⟩
  · unfold MotorController.execute
    rw [hcmd, if_neg (by decide), if_pos (by decide)]
    exact hstop
  · exact ⟨applyEvents_stop_low c.levels c.pins _ (Or.inl rfl),
      applyEvents_stop_low c.levels c.pins _ (Or.inr (Or.inl rfl)),
      applyEvents_stop_low c.levels c.pins _ (Or.inr (Or.inr (Or.inl rfl))),
      applyEvents_stop_low c.levels c.pins _ (Or.inr (Or.inr (Or.inr rfl)))⟩

theorem C6_stop_ignores_duration_witness :
    pyStripUpper " stOp " = "STOP" ∧
    controller.cleaned = false ∧
    (∃ c', controller.execute " stOp " (PyVal.num (-5)) = Except.ok
        ({ message := "Motors stopped", duration := Option.none }, c',
          stopTrace controller.pins) ∧
      controller.stop = Except.ok
        ({ message := "Motors stopped", duration := Option.none }, c',
          stopTrace controller.pins) ∧
      allPinsLow c') :=
  ⟨by decide, by decide,
    C6_stop_ignores_duration controller " stOp " (PyVal.num (-5)) (by decide)
      (by decide)⟩

/-- C7: `execute` normalizes the command by trimming whitespace and
uppercasing; an empty (or all-whitespace) command raises the InvalidCommand
error; a normalized value outside the recognised set raises the
UnknownCommand error; an accepted drive/turn command yields a
human-readable message and the resolved (not raw) duration, e.g.
`execute("forward", duration=0.01)` returns message "Moving forward" and
duration 0.01. -/
theorem C7_command_validation (c : MotorController) (cmd bad : String)
    (dur : PyVal)
    (hempty : pyStripUpper cmd = "")
    (hbadne : pyStripUpper bad ≠ "")
    (hbad : ¬ (pyStripUpper bad = "FORWARD" ∨ pyStripUpper bad = "BACKWARD" ∨
      pyStripUpper bad = "LEFT" ∨ pyStripUpper bad = "RIGHT" ∨
      pyStripUpper bad = "STOP")) :
    c.execute cmd dur = Except.error MotorControllerError.commandRequired ∧
    c.execute bad dur = Except.error MotorControllerError.unknownCommand ∧
    MotorControllerError.commandRequired.message = "Command is required" ∧
    MotorControllerError.unknownCommand.message = "Unknown command" ∧
    execResult (controller.execute "forward" (PyVal.num (mkRat 1 100))) =
      some { message := "Moving forward", duration := some (mkRat 1 100) } := by
  push_neg at hbad
  obtain ⟨h1, h2, h3, h4, h5⟩ := hbad
  refine ⟨?_, ?_, rfl, rfl, by decide⟩
  · unfold MotorController.execute
    rw [hempty, if_pos rfl]
  · unfold MotorController.execute
    rw [if_neg hbadne, if_neg h5, if_neg (by simp [h1, h2]),
      if_neg (by simp [h3, h4])]

theorem C7_command_validation_witness :
    pyStripUpper "  " = "" ∧
    pyStripUpper "spin" ≠ "" ∧
    ¬ (pyStripUpper "spin" = "FORWARD" ∨ pyStripUpper "spin" = "BACKWARD" ∨
      pyStripUpper "spin" = "LEFT" ∨ pyStripUpper "spin" = "RIGHT" ∨
      pyStripUpper "spin" = "STOP") ∧
    (controller.execute "  " PyVal.none =
      Except.error MotorControllerError.commandRequired ∧
    controller.execute "spin" PyVal.none =
      Except.error MotorControllerError.unknownCommand ∧
    MotorControllerError.commandRequired.message = "Command is required" ∧
    MotorControllerError.unknownCommand.message = "Unknown command" ∧
    execResult (controller.execute "forward" (PyVal.num (mkRat 1 100))) =
      some { message := "Moving forward", duration := some (mkRat 1 100) }) :=
  ⟨by decide, by decide, by decide,
    C7_command_validation controller "  " "spin" PyVal.none (by decide)
      (by decide) (by decide)⟩

theorem stop_pins (c : MotorController) (res : ExecResult)
    (c' : MotorController) (tr : List GpioEvent)
    (h : c.stop = Except.ok (res, c', tr)) :
    c'.pins = c.pins ∧ c'.cleaned = c.cleaned := by
  unfold MotorController.stop MotorController.ensureActive
    MotorController.stopLocked at h
  cases hcl : c.cleaned <;> rw [hcl] at h
  · simp at h
    obtain ⟨-, rfl, -⟩ := h
    exact ⟨rfl, rfl⟩
  · simp at h

theorem runWithDuration_pins (c : MotorController) (pr : Nat × Nat)
    (dur : PyVal) (dft d : ℚ) (c' : MotorController) (tr : List GpioEvent)
    (h : c.runWithDuration pr dur dft = Except.ok (d, c', tr)) :
    c'.pins = c.pins ∧ c'.cleaned = c.cleaned := by
  unfold MotorController.runWithDuration at h
  rcases hn : c.normalizeDuration dur dft with e | v <;> rw [hn] at h
  · simp at h
  · unfold MotorController.ensureActive at h
    cases hcl : c.cleaned <;> rw [hcl] at h
    · simp at h
      obtain ⟨-, rfl, -⟩ := h
      exact ⟨rfl, rfl⟩
    · simp at h

theorem execute_pins (c : MotorController) (cmd : String) (dur : PyVal)
    (res : ExecResult) (c' : MotorController) (tr : List GpioEvent)
    (h : c.execute cmd dur = Except.ok (res, c', tr)) :
    c'.pins = c.pins ∧ c'.cleaned = c.cleaned := by
  simp only [MotorController.execute] at h
  split at h
  · simp at h
  · split at h
    · exact stop_pins c res c' tr h
    · split at h
      · rcases hr : c.runWithDuration
            (c.selectDrivePins (pyStripUpper cmd)) dur c.driveDuration with
          e | ⟨d, c2, tr2⟩ <;> rw [hr] at h
        · simp at h
        · simp at h
          obtain ⟨-, rfl, -⟩ := h
          exact runWithDuration_pins c _ dur _ d c2 tr2 hr
      · split at h
        · rcases hr : c.runWithDuration
              (c.selectTurnPins (pyStripUpper cmd)) dur c.turnDuration with
            e | ⟨d, c2, tr2⟩ <;> rw [hr] at h
          · simp at h
          · simp at h
            obtain ⟨-, rfl, -⟩ := h
            exact runWithDuration_pins c _ dur _ d c2 tr2 hr
        · simp at h

/-- C8 counterexample: the pin-layout distinctness invariant is not enforced
at construction: a controller built from the layout (1, 1, 1, 1) is
constructed without complaint, and its four pin identifiers coincide. -/
theorem C8_counterexample :
    samePinController.pins.forward = samePinController.pins.backward ∧
    ¬ pinsDistinct samePinController.pins := by decide

/-- C8 (amended): the four pin identifiers are fixed at construction time
and immutable for the controller's lifetime — `init` stores the given
layout verbatim and no operation (`execute`, `stop`, `cleanup`) changes it —
and the module-level layout `PINS` is pairwise distinct; however pairwise
distinctness is not enforced for every constructed controller. -/
theorem C8_pins_fixed_immutable (p : MotorPins) (dd td md : ℚ)
    (prior : Nat → PinLevel) (c : MotorController) (cmd : String)
    (dur : PyVal) (r : Bool) :
    (MotorController.init p dd td md prior).pins = p ∧
    (∀ res c' tr, c.execute cmd dur = Except.ok (res, c', tr) →
      c'.pins = c.pins) ∧
    (∀ res c' tr, c.stop = Except.ok (res, c', tr) → c'.pins = c.pins) ∧
    (c.cleanup r).2.1.pins = c.pins ∧
    pinsDistinct PINS := by
  refine ⟨rfl, ?_, ?_, ?_, by decide⟩
  · intro res c' tr h
    exact (execute_pins c cmd dur res c' tr h).1
  · intro res c' tr h
    exact (stop_pins c res c' tr h).1
  · unfold MotorController.cleanup MotorController.stopLocked
    cases hcl : c.cleaned <;> cases r <;> rfl

theorem C8_pins_fixed_immutable_witness :
    (MotorController.init PINS 2 1 5 (fun _ => PinLevel.low)).pins = PINS ∧
    (∀ res c' tr, controller.execute "FORWARD" PyVal.none =
      Except.ok (res, c', tr) → c'.pins = controller.pins) ∧
    (∀ res c' tr, controller.stop = Except.ok (res, c', tr) →
      c'.pins = controller.pins) ∧
    (controller.cleanup false).2.1.pins = controller.pins ∧
    pinsDistinct PINS :=
  C8_pins_fixed_immutable PINS 2 1 5 (fun _ => PinLevel.low) controller
    "FORWARD" PyVal.none false

/-- C9 counterexample: a failure of the GPIO release step during `cleanup`
is not caught — there is no try/except around `self._gpio.cleanup()` — so
the error propagates to the caller (it is re-raised, not logged and
swallowed): on an Active controller the raise escapes `cleanup`. -/
theorem C9_counterexample :
    controller.cleaned = false ∧ (controller.cleanup true).1 = true := by
  decide

/-- C9 (amended): if releasing the GPIO resource fails during shutdown of an
Active controller, the pins have already been forced Low before the release
attempt, but the error propagates out of `cleanup` (and hence out of the
signal handler `cleanup_and_exit`, which does not catch it either), and the
controller is not marked ShutDown. -/
theorem C9_release_failure (c : MotorController) (hact : c.cleaned = false) :
    ∃ c', c.cleanup true = (true, c', stopTrace c.pins) ∧
      allPinsLow c' ∧ c'.cleaned = false := by
  refine
    ⟨{ c with levels := applyEvents c.levels (stopTrace c.pins) },
      ?_, ?_, hact⟩
  · unfold MotorController.cleanup MotorController.stopLocked
    rw [hact]
    rfl
  · exact ⟨applyEvents_stop_low c.levels c.pins _ (Or.inl rfl),
      applyEvents_stop_low c.levels c.pins _ (Or.inr (Or.inl rfl)),
      applyEvents_stop_low c.levels c.pins _ (Or.inr (Or.inr (Or.inl rfl))),
      applyEvents_stop_low c.levels c.pins _ (Or.inr (Or.inr (Or.inr rfl)))⟩

theorem C9_release_failure_witness :
    controller.cleaned = false ∧
    (∃ c', controller.cleanup true = (true, c', stopTrace controller.pins) ∧
      allPinsLow c' ∧ c'.cleaned = false) :=
  ⟨by decide, C9_release_failure controller (by decide)⟩

/-- C10: any value accepted by Python float conversion is accepted as a
duration, not only JSON numbers: a numeric string such as "2.5" converts
and is accepted, and the boolean True converts to 1.0 and is accepted; in
every such case the duration echoed in the `execute` result is the
converted float, not the raw input. -/
theorem C10_float_conversion (c : MotorController) (s : String) (q dft : ℚ)
    (hs : pyFloatOfString s = some q) (h0 : 0 < q) (hm : q ≤ c.maxDuration)
    (h1 : (1 : ℚ) ≤ c.maxDuration) (hact : c.cleaned = false) :
    c.normalizeDuration (PyVal.str s) dft = Except.ok q ∧
    c.normalizeDuration (PyVal.bool true) dft = Except.ok 1 ∧
    (∃ res c' tr, c.execute "FORWARD" (PyVal.str s) =
        Except.ok (res, c', tr) ∧
      res.duration = some q ∧ res.message = "Moving forward") ∧
    pyFloatOfString "2.5" = some (mkRat 5 2) ∧
    execDuration (controller.execute "FORWARD" (PyVal.str "2.5")) =
      some (some (mkRat 5 2)) ∧
    execDuration (controller.execute "FORWARD" (PyVal.bool true)) =
      some (some 1) := by
  have hq : ∀ d : ℚ, c.normalizeDuration (PyVal.str s) d = Except.ok q := by
    intro d
    simp only [MotorController.normalizeDuration, pyToFloat, hs, Option.map]
    rw [if_neg (not_le.mpr h0), if_neg (not_lt.mpr hm)]
  refine ⟨hq dft, ?_, ?_, by decide, by decide, by decide⟩
  · simp only [MotorController.normalizeDuration, pyToFloat, ite_true,
      reduceIte]
    rw [if_neg (by norm_num), if_neg (not_lt.mpr h1)]
  · exact ⟨_, _, _, execute_eq_motion c "FORWARD" (PyVal.str s) q
      (Or.inl (by decide)) hact (by rw [hq]), rfl, rfl⟩

theorem C10_float_conversion_witness :
    pyFloatOfString "2.5" = some (mkRat 5 2) ∧
    (0 : ℚ) < mkRat 5 2 ∧
    mkRat 5 2 ≤ controller.maxDuration ∧
    (1 : ℚ) ≤ controller.maxDuration ∧
    controller.cleaned = false ∧
    (controller.normalizeDuration (PyVal.str "2.5") 2 =
      Except.ok (mkRat 5 2) ∧
    controller.normalizeDuration (PyVal.bool true) 2 = Except.ok 1 ∧
    (∃ res c' tr, controller.execute "FORWARD" (PyVal.str "2.5") =
        Except.ok (res, c', tr) ∧
      res.duration = some (mkRat 5 2) ∧ res.message = "Moving forward") ∧
    pyFloatOfString "2.5" = some (mkRat 5 2) ∧
    execDuration (controller.execute "FORWARD" (PyVal.str "2.5")) =
      some (some (mkRat 5 2)) ∧
    execDuration (controller.execute "FORWARD" (PyVal.bool true)) =
      some (some 1)) :=
  ⟨by decide, by decide, by decide, by decide, by decide,
    C10_float_conversion controller "2.5" (mkRat 5 2) 2 (by decide)
      (by decide) (by decide) (by decide) (by decide)⟩

end GptCar
